import Mathlib

set_option maxHeartbeats 1000000

namespace MsfMcp

/-! # Shallow embedding of the metasploit-mcp repository

Embeds `src/metasploit_mcp/client.py` (MetasploitClient) and
`src/metasploit_mcp/tools.py` (the MCP tool layer).  JSON values (Python
dicts parsed from HTTP bodies) are modelled by `JValue`; Python dicts are
insertion-ordered association lists; Python exceptions raised inside the
tools' try-blocks are modelled with `Except String`, the caught exception
becoming the `str(e)` message of the error envelope.  The HTTP layer
(`requests.Session.post`) and `json.loads` are external collaborators and
enter as function-valued oracles. -/

/-- JSON-like value, the result of `response.json()` / `json.loads`.
Objects are insertion-ordered key/value lists, as Python dicts are.
(JSON floats do not occur in any modelled code path; numbers are `Int`.) -/
inductive JValue where
  | null
  | bool (b : Bool)
  | num (n : Int)
  | str (s : String)
  | arr (xs : List JValue)
  | obj (kvs : List (String × JValue))

/-- Lookup of a key in a Python dict (first — and, keys being unique in a
real dict, only — occurrence). -/
def dictGet? (kvs : List (String × JValue)) (k : String) : Option JValue :=
  match kvs with
  | [] => none
  | (k', v) :: rest => if k' = k then some v else dictGet? rest k

/-- Python dict assignment `d[k] = v`: replaces the value in place, keeping
the key's original insertion position, or appends a fresh key at the end. -/
def dictSet (kvs : List (String × JValue)) (k : String) (v : JValue) :
    List (String × JValue) :=
  match kvs with
  | [] => [(k, v)]
  | (k', v') :: rest =>
      if k' = k then (k', v) :: rest else (k', v') :: dictSet rest k v

/-- Python `d.update(e)` / dict-display spread `{..., **e}`: assign every
entry of `e` into `d` in order. -/
def dictUpdate (d e : List (String × JValue)) : List (String × JValue) :=
  e.foldl (fun acc kv => dictSet acc kv.1 kv.2) d

/-- Key lookup on a `JValue` known to be an object (helper for theorem
statements; returns `none` on non-objects). -/
def jGet (v : JValue) (k : String) : Option JValue :=
  match v with
  | .obj kvs => dictGet? kvs k
  | _ => none

/-- Python `v == some_string` for a JSON value: true exactly when `v` is
that string (Python equality between a string and a non-string is False). -/
def isStrEq (v : JValue) (s : String) : Bool :=
  match v with
  | .str t => t == s
  | _ => false

/-- Contiguous-sublist test on character lists (Python substring `in`). -/
def subList (hay needle : List Char) : Bool :=
  needle.isPrefixOf hay ||
    (match hay with
     | [] => false
     | _ :: t => subList t needle)

/-- Python `needle in hay` on strings: contiguous substring containment. -/
def strContains (hay needle : String) : Bool :=
  subList hay.data needle.data

/-- Python `s.lower()` (ASCII case folding; every modelled input is
ASCII). -/
def strLower (s : String) : String :=
  String.mk (s.data.map Char.toLower)

/-- Python `s.replace(c, r)` for one-character pattern and replacement, the
only shape the source uses (`payload_name.replace('/', '_')`). -/
def pyReplaceChar (s : String) (c r : Char) : String :=
  String.mk (s.data.map (fun x => if x = c then r else x))

/-- Python `k in v` where `k` is a string: key membership for dicts, element
membership for lists, substring test for strings; raises `TypeError` on
non-containers. -/
def pyIn (k : String) : JValue → Except String Bool
  | .obj kvs => .ok (dictGet? kvs k).isSome
  | .arr xs => .ok (xs.any (fun e => isStrEq e k))
  | .str s => .ok (strContains s k)
  | _ => .error "TypeError: argument of type is not iterable"

/-- Python subscript `v[k]` with a string key: dict lookup (KeyError when
absent); any other receiver raises `TypeError`. -/
def pyGetItem (v : JValue) (k : String) : Except String JValue :=
  match v with
  | .obj kvs =>
      match dictGet? kvs k with
      | some x => .ok x
      | none => .error ("KeyError: " ++ k)
  | _ => .error "TypeError: object is not subscriptable"

/-- Python `v.get(k, d)`: only dicts have `.get`; any other receiver raises
`AttributeError`. -/
def pyDictGet (v : JValue) (k : String) (d : JValue) : Except String JValue :=
  match v with
  | .obj kvs => .ok ((dictGet? kvs k).getD d)
  | _ => .error "AttributeError: object has no attribute get"

/-- Python iteration `for e in v`: lists yield elements, dicts yield their
keys, strings yield one-character strings; others raise `TypeError`. -/
def pyIter : JValue → Except String (List JValue)
  | .arr xs => .ok xs
  | .obj kvs => .ok (kvs.map (fun kv => .str kv.1))
  | .str s => .ok (s.data.map (fun c => .str (String.mk [c])))
  | _ => .error "TypeError: object is not iterable"

/-- Python `len(v)`: length of lists, dicts and strings; `TypeError`
otherwise. -/
def pyLen : JValue → Except String Nat
  | .arr xs => .ok xs.length
  | .obj kvs => .ok kvs.length
  | .str s => .ok s.length
  | _ => .error "TypeError: object has no len"

/-- Python slice `v[:n]`: a fresh list/string of the first `n` items;
dicts and scalars raise `TypeError`. -/
def pySlice (n : Nat) : JValue → Except String JValue
  | .arr xs => .ok (.arr (xs.take n))
  | .str s => .ok (.str (s.take n))
  | _ => .error "TypeError: object is not subscriptable by slice"

/-- The list comprehension `[e for e in xs if needle in e.lower()]` from
`client.list_exploits` / `client.list_payloads` (`needle` is already
lower-cased by the caller).  A non-string element raises `AttributeError`
at its `.lower()` call, left to right. -/
def pyFilterContains (needle : String) : List JValue → Except String (List JValue)
  | [] => .ok []
  | e :: rest =>
      match e with
      | .str s =>
          match pyFilterContains needle rest with
          | .error msg => .error msg
          | .ok tail =>
              if strContains (strLower s) needle then .ok (.str s :: tail)
              else .ok tail
      | _ => .error "AttributeError: object has no attribute lower"

/-! ## Transport layer (client.py) -/

/-- Outcome of one `self.session.post(...)` round trip: a raised
network/transport exception, or an HTTP response whose `.json()` body
either parses to a value or raises a parse error. -/
inductive HttpOutcome where
  | exc (msg : String)
  | response (status : Nat) (body : Except String JValue)

/-- The `requests.Session.post` collaborator, as an oracle from the posted
JSON payload to the HTTP outcome. -/
def Post := JValue → HttpOutcome

/-- The mutable state of `MetasploitClient` (`__init__`): the
environment-supplied endpoint configuration plus the session token.
The `requests.Session` object itself is the `Post` oracle. -/
structure ClientState where
  rpc_url : String
  rpc_password : String
  rpc_ssl : Bool
  token : Option JValue

/-- The login request body built by `connect`. -/
def authData (st : ClientState) : JValue :=
  .obj [("jsonrpc", .str "2.0"), ("method", .str "login"),
        ("params", .obj [("password", .str st.rpc_password)]), ("id", .num 1)]

/-- The body-inspection step of `connect` (client.py lines 43-46): the
short-circuit conjunction `"result" in result and "token" in
result["result"]` followed by storing `result["result"]["token"]`, every
raised exception being caught by the surrounding handler. -/
def connectBody (st : ClientState) (result : JValue) : Bool × ClientState :=
  match pyIn "result" result with
  | .error _ => (false, st)
  | .ok false => (false, st)
  | .ok true =>
      match pyGetItem result "result" with
      | .error _ => (false, st)
      | .ok r =>
          match pyIn "token" r with
          | .error _ => (false, st)
          | .ok false => (false, st)
          | .ok true =>
              match pyGetItem r "token" with
              | .error _ => (false, st)
              | .ok t => (true, { st with token := some t })

/-- `MetasploitClient.connect`: posts the login payload; on HTTP 200 with a
parsed body it runs `connectBody`.  Every raised exception is caught
(`except Exception`) and every non-success path returns `False` with the
state unchanged. -/
def connect (post : Post) (st : ClientState) : Bool × ClientState :=
  match post (authData st) with
  | .exc _ => (false, st)
  | .response status body =>
      if status = 200 then
        match body with
        | .error _ => (false, st)
        | .ok result => connectBody st result
      else (false, st)

/-- The lazy re-auth prefix of `call_rpc`: `if not self.token: await
self.connect()` (the returned boolean is discarded). -/
def ensureConnected (post : Post) (st : ClientState) : ClientState :=
  if st.token.isNone then (connect post st).2 else st

/-- The request body built by `call_rpc`, with `payload["token"] =
self.token` appended when a token is held. -/
def rpcPayload (st : ClientState) (method : String) (params : JValue) : JValue :=
  let kvs : List (String × JValue) :=
    [("jsonrpc", .str "2.0"), ("method", .str method),
     ("params", params), ("id", .num 1)]
  match st.token with
  | some t => .obj (dictSet kvs "token" t)
  | none => .obj kvs

/-- `MetasploitClient.call_rpc`: ensures a token (lazily reconnecting),
posts the payload, and classifies the outcome — raised exception becomes
an error envelope with the exception text, HTTP status other than 200
becomes an error envelope with message string made of HTTP and the status
code, and a 200 body is returned verbatim (parse failure being a caught
exception). -/
def call_rpc (post : Post) (st : ClientState) (method : String)
    (params : JValue) : JValue × ClientState :=
  let st1 := ensureConnected post st
  match post (rpcPayload st1 method params) with
  | .exc msg => (.obj [("error", .str msg)], st1)
  | .response status body =>
      if status = 200 then
        match body with
        | .ok v => (v, st1)
        | .error msg => (.obj [("error", .str msg)], st1)
      else (.obj [("error", .str ("HTTP " ++ toString status))], st1)

/-! ## Command façade (client.py, typed operations) -/

namespace Client

/-- `MetasploitClient.list_exploits`: calls `module.exploits` (no params,
`params or {}` giving the empty dict); if the reply has a `result` key,
optionally filters by `search_term.lower() in e.lower()`, else returns the
empty list.  The surrounding value is whatever Python would return; raised
exceptions (there is no try-block here) surface as `.error`. -/
def list_exploits (post : Post) (st : ClientState) (search_term : String) :
    Except String JValue × ClientState :=
  let r := call_rpc post st "module.exploits" (.obj [])
  let out : Except String JValue :=
    match pyIn "result" r.1 with
    | .error msg => .error msg
    | .ok false => .ok (.arr [])
    | .ok true =>
        match pyGetItem r.1 "result" with
        | .error msg => .error msg
        | .ok exploits =>
            if search_term ≠ "" then
              match pyIter exploits with
              | .error msg => .error msg
              | .ok xs =>
                  match pyFilterContains (strLower search_term) xs with
                  | .error msg => .error msg
                  | .ok ys => .ok (.arr ys)
            else .ok exploits
  (out, r.2)

/-- `MetasploitClient.list_payloads`: same pattern as `list_exploits` with
the platform filter applied first and the arch filter applied to its
output. -/
def list_payloads (post : Post) (st : ClientState) (platform arch : String) :
    Except String JValue × ClientState :=
  let r := call_rpc post st "module.payloads" (.obj [])
  let filterBy (needle : String) (v : JValue) : Except String JValue :=
    match pyIter v with
    | .error msg => .error msg
    | .ok xs =>
        match pyFilterContains (strLower needle) xs with
        | .error msg => .error msg
        | .ok ys => .ok (.arr ys)
  let out : Except String JValue :=
    match pyIn "result" r.1 with
    | .error msg => .error msg
    | .ok false => .ok (.arr [])
    | .ok true =>
        match pyGetItem r.1 "result" with
        | .error msg => .error msg
        | .ok payloads =>
            match (if platform ≠ "" then filterBy platform payloads
                   else .ok payloads) with
            | .error msg => .error msg
            | .ok p1 => if arch ≠ "" then filterBy arch p1 else .ok p1
  (out, r.2)

/-- The `params` dict built for `module.execute` / `module.check`:
`module` plus `options`. -/
def exploitParams (name : String) (options : List (String × JValue)) : JValue :=
  .obj [("module", .str name), ("options", .obj options)]

/-- `MetasploitClient.execute_exploit`: `module.execute` with the module
name and options. -/
def execute_exploit (post : Post) (st : ClientState) (name : String)
    (options : List (String × JValue)) : JValue × ClientState :=
  call_rpc post st "module.execute" (exploitParams name options)

/-- The `params` dict built for payload generation: `module`, `options`
and the extra `datastore.Format` directive. -/
def generateParams (name fmt : String) (options : List (String × JValue)) : JValue :=
  .obj [("module", .str name), ("options", .obj options),
        ("datastore", .obj [("Format", .str fmt)])]

/-- `MetasploitClient.generate_payload`: `module.execute` with the added
`datastore.Format` field — the same RPC method as exploit execution. -/
def generate_payload (post : Post) (st : ClientState) (name fmt : String)
    (options : List (String × JValue)) : JValue × ClientState :=
  call_rpc post st "module.execute" (generateParams name fmt options)

/-- The element `{"id": k, **v}` of `list_sessions`: a dict display whose
later spread overwrites the earlier literal key; spreading a non-mapping
raises `TypeError`. -/
def mergeSessionEntry (k : String) (v : JValue) : Except String JValue :=
  match v with
  | .obj attrs => .ok (.obj (dictUpdate [("id", .str k)] attrs))
  | _ => .error "TypeError: argument after ** must be a mapping"

/-- The comprehension over `result["result"].items()`. -/
def mergeSessionEntries : List (String × JValue) → Except String (List JValue)
  | [] => .ok []
  | kv :: rest =>
      match mergeSessionEntry kv.1 kv.2 with
      | .error msg => .error msg
      | .ok e =>
          match mergeSessionEntries rest with
          | .error msg => .error msg
          | .ok tail => .ok (e :: tail)

/-- `MetasploitClient.list_sessions`: calls `session.list`; when the reply
carries a `result`, builds `[{"id": k, **v} for k, v in
result["result"].items()]`; otherwise returns the empty list.  A
non-dict `result` value raises at `.items()`. -/
def list_sessions (post : Post) (st : ClientState) :
    Except String JValue × ClientState :=
  let r := call_rpc post st "session.list" (.obj [])
  let out : Except String JValue :=
    match pyIn "result" r.1 with
    | .error msg => .error msg
    | .ok false => .ok (.arr [])
    | .ok true =>
        match pyGetItem r.1 "result" with
        | .error msg => .error msg
        | .ok inner =>
            match inner with
            | .obj kvs =>
                match mergeSessionEntries kvs with
                | .error msg => .error msg
                | .ok elems => .ok (.arr elems)
            | _ => .error "AttributeError: object has no attribute items"
  (out, r.2)

/-- The `params` dict for `session.shell_write`. -/
def sessionCommandParams (session_id : Int) (command : String) : JValue :=
  .obj [("id", .num session_id), ("command", .str command)]

/-- `MetasploitClient.session_command`: `session.shell_write` with id and
command. -/
def session_command (post : Post) (st : ClientState) (session_id : Int)
    (command : String) : JValue × ClientState :=
  call_rpc post st "session.shell_write" (sessionCommandParams session_id command)

/-- The `params` dict for `session.stop`. -/
def killParams (session_id : Int) : JValue := .obj [("id", .num session_id)]

/-- `MetasploitClient.kill_session`: `session.stop` with the id. -/
def kill_session (post : Post) (st : ClientState) (session_id : Int) :
    JValue × ClientState :=
  call_rpc post st "session.stop" (killParams session_id)

end Client

/-! ## Tool adapter (tools.py) -/

namespace Tools

/-- The `json.loads` collaborator: `none` models a raised
`json.JSONDecodeError`, `some v` a successful parse to `v`. -/
def ParseJson := String → Option JValue

/-- Arguments of the `run_exploit` tool. -/
structure ExploitArgs where
  exploit_name : String
  rhosts : String
  payload : String
  lhost : String
  lport : Int
  additional_options : String
  run_check : Bool

/-- Arguments of the `generate_payload` tool. -/
structure PayloadArgs where
  payload_name : String
  format_type : String
  lhost : String
  lport : Int
  additional_options : String

/-- Filesystem side effects of `generate_payload`, in program order:
`os.makedirs(save_dir, exist_ok=True)`, file creation by
`open(filepath, "wb")`, and the `f.write(data)` call. -/
inductive FileEffect where
  | makedirs (dir : String)
  | create (path : String)
  | write (path : String) (data : JValue)

/-- Result of one tool invocation: the decoded JSON envelope the tool
serializes, the RPC calls it issued (method and params, in order), the
file effects, and the client state afterwards. -/
structure ToolResult where
  envelope : JValue
  calls : List (String × JValue)
  effects : List FileEffect
  state : ClientState

/-- The envelope `{"status": "error", "message": str(e)}` produced by each
tool's `except Exception` handler. -/
def errorEnvelope (msg : String) : JValue :=
  .obj [("status", .str "error"), ("message", .str msg)]

/-- The envelope returned on an unparseable `additional_options` string. -/
def invalidJsonEnvelope : JValue :=
  .obj [("status", .str "error"),
        ("message", .str "Invalid JSON in additional_options")]

/-- The explicit-parameter part of `run_exploit`'s options dict:
`RHOSTS` always, then `PAYLOAD`/`LHOST` when non-empty (Python string
truthiness) and `LPORT = str(lport)` when `lport` is non-zero (Python int
truthiness). -/
def exploitBaseOptions (a : ExploitArgs) : List (String × JValue) :=
  let o : List (String × JValue) := [("RHOSTS", .str a.rhosts)]
  let o := if a.payload ≠ "" then dictSet o "PAYLOAD" (.str a.payload) else o
  let o := if a.lhost ≠ "" then dictSet o "LHOST" (.str a.lhost) else o
  if a.lport ≠ 0 then dictSet o "LPORT" (.str (toString a.lport)) else o

/-- The explicit-parameter part of `generate_payload`'s options dict. -/
def payloadBaseOptions (a : PayloadArgs) : List (String × JValue) :=
  let o : List (String × JValue) := []
  let o := if a.lhost ≠ "" then dictSet o "LHOST" (.str a.lhost) else o
  if a.lport ≠ 0 then dictSet o "LPORT" (.str (toString a.lport)) else o

/-- The `run_exploit` tool from the point where the options dict is
complete (tools.py lines 95-117): the optional `module.check` gate — the
exploit is short-circuited with `check_failed` exactly when `"result" in
check_result and check_result["result"].get("status") != "exploitable"` —
followed by `module.execute`; raised exceptions become error
envelopes via the outer handler. -/
def run_exploit_core (post : Post) (st : ClientState) (a : ExploitArgs)
    (options : List (String × JValue)) : ToolResult :=
  let execGo (st' : ClientState) (prior : List (String × JValue)) : ToolResult :=
    let er := Client.execute_exploit post st' a.exploit_name options
    ⟨.obj [("status", .str "success"), ("exploit", .str a.exploit_name),
           ("target", .str a.rhosts), ("result", er.1)],
     prior ++ [("module.execute", Client.exploitParams a.exploit_name options)],
     [], er.2⟩
  if a.run_check then
    let checkParams := Client.exploitParams a.exploit_name options
    let cr := call_rpc post st "module.check" checkParams
    let afterCheck := [("module.check", checkParams)]
    match pyIn "result" cr.1 with
    | .error msg => ⟨errorEnvelope msg, afterCheck, [], cr.2⟩
    | .ok false => execGo cr.2 afterCheck
    | .ok true =>
        match pyGetItem cr.1 "result" with
        | .error msg => ⟨errorEnvelope msg, afterCheck, [], cr.2⟩
        | .ok r =>
            match pyDictGet r "status" .null with
            | .error msg => ⟨errorEnvelope msg, afterCheck, [], cr.2⟩
            | .ok s =>
                if isStrEq s "exploitable" then execGo cr.2 afterCheck
                else
                  ⟨.obj [("status", .str "check_failed"),
                         ("message", .str "Target is not vulnerable or check failed"),
                         ("check_result", cr.1)],
                   afterCheck, [], cr.2⟩
  else execGo st []

/-- The `run_exploit` tool (tools.py lines 75-120): builds the options
dict, merges the parsed `additional_options` with `options.update`, and
runs the check/execute flow.  An unparseable JSON blob returns the
Invalid-JSON envelope before any RPC call; a parse result that is not a
mapping raises inside `options.update` (abstracted as the raised
`TypeError` — Python would also accept an iterable of key/value pairs, a
shape no modelled caller produces). -/
def run_exploit (post : Post) (parseJson : ParseJson) (st : ClientState)
    (a : ExploitArgs) : ToolResult :=
  let options := exploitBaseOptions a
  if a.additional_options ≠ "" then
    match parseJson a.additional_options with
    | none => ⟨invalidJsonEnvelope, [], [], st⟩
    | some (.obj extra) => run_exploit_core post st a (dictUpdate options extra)
    | some _ =>
        ⟨errorEnvelope "TypeError: update expected a mapping", [], [], st⟩
  else run_exploit_core post st a options

/-- The `generate_payload` tool from the point where the options dict is
complete (tools.py lines 159-187): issues the generation RPC; when the
reply has a `result` key it creates the save directory, derives
`<payload name with slashes replaced by underscores>.<format>`, opens the
file (creating it) and writes `result["result"].get("data", b"")`;
otherwise it reports a generation failure.  `os.path.join` is modelled
for a directory without a trailing separator; the `b""` default is the
empty artifact. -/
def generate_payload_core (post : Post) (save_dir : String) (st : ClientState)
    (a : PayloadArgs) (options : List (String × JValue)) : ToolResult :=
  let gr := Client.generate_payload post st a.payload_name a.format_type options
  let calls := [("module.execute",
                 Client.generateParams a.payload_name a.format_type options)]
  match pyIn "result" gr.1 with
  | .error msg => ⟨errorEnvelope msg, calls, [], gr.2⟩
  | .ok false =>
      ⟨.obj [("status", .str "error"),
             ("message", .str "Payload generation failed"), ("result", gr.1)],
       calls, [], gr.2⟩
  | .ok true =>
      let filename := pyReplaceChar a.payload_name '/' '_' ++ "." ++ a.format_type
      let filepath := save_dir ++ "/" ++ filename
      let opened : List FileEffect :=
        [.makedirs save_dir, .create filepath]
      match pyGetItem gr.1 "result" with
      | .error msg => ⟨errorEnvelope msg, calls, opened, gr.2⟩
      | .ok r =>
          match pyDictGet r "data" (.str "") with
          | .error msg => ⟨errorEnvelope msg, calls, opened, gr.2⟩
          | .ok data =>
              ⟨.obj [("status", .str "success"), ("payload", .str a.payload_name),
                     ("format", .str a.format_type), ("saved_to", .str filepath),
                     ("result", gr.1)],
               calls, opened ++ [.write filepath data], gr.2⟩

/-- The `generate_payload` tool (tools.py lines 122-187): option building
and JSON-blob merge as in `run_exploit`, then the generation flow;
`save_dir` is the environment-supplied `PAYLOAD_SAVE_DIR`. -/
def generate_payload (post : Post) (parseJson : ParseJson) (save_dir : String)
    (st : ClientState) (a : PayloadArgs) : ToolResult :=
  let options := payloadBaseOptions a
  if a.additional_options ≠ "" then
    match parseJson a.additional_options with
    | none => ⟨invalidJsonEnvelope, [], [], st⟩
    | some (.obj extra) =>
        generate_payload_core post save_dir st a (dictUpdate options extra)
    | some _ =>
        ⟨errorEnvelope "TypeError: update expected a mapping", [], [], st⟩
  else generate_payload_core post save_dir st a options

/-- The `list_exploits` tool: wraps the façade result in
`{"status": "success", "count": len(exploits), "exploits": exploits[:50]}`,
any raised exception becoming the error envelope. -/
def list_exploits (post : Post) (st : ClientState) (search_term : String) :
    JValue × ClientState :=
  let r := Client.list_exploits post st search_term
  match r.1 with
  | .error msg => (errorEnvelope msg, r.2)
  | .ok exploits =>
      match pyLen exploits with
      | .error msg => (errorEnvelope msg, r.2)
      | .ok n =>
          match pySlice 50 exploits with
          | .error msg => (errorEnvelope msg, r.2)
          | .ok shown =>
              (.obj [("status", .str "success"), ("count", .num n),
                     ("exploits", shown)], r.2)

/-- The `list_payloads` tool: same envelope with a `payloads` field. -/
def list_payloads (post : Post) (st : ClientState) (platform arch : String) :
    JValue × ClientState :=
  let r := Client.list_payloads post st platform arch
  match r.1 with
  | .error msg => (errorEnvelope msg, r.2)
  | .ok payloads =>
      match pyLen payloads with
      | .error msg => (errorEnvelope msg, r.2)
      | .ok n =>
          match pySlice 50 payloads with
          | .error msg => (errorEnvelope msg, r.2)
          | .ok shown =>
              (.obj [("status", .str "success"), ("count", .num n),
                     ("payloads", shown)], r.2)

/-- The `send_session_command` tool: issues `session.shell_write` and
always wraps the reply under `status: success`. -/
def send_session_command (post : Post) (st : ClientState) (session_id : Int)
    (command : String) : ToolResult :=
  let r := Client.session_command post st session_id command
  ⟨.obj [("status", .str "success"), ("session_id", .num session_id),
         ("command", .str command), ("result", r.1)],
   [("session.shell_write", Client.sessionCommandParams session_id command)],
   [], r.2⟩

/-- The `kill_session` tool: issues `session.stop` and always wraps the
reply under `status: success`. -/
def kill_session (post : Post) (st : ClientState) (session_id : Int) :
    ToolResult :=
  let r := Client.kill_session post st session_id
  ⟨.obj [("status", .str "success"), ("session_id", .num session_id),
         ("result", r.1)],
   [("session.stop", Client.killParams session_id)], [], r.2⟩

/-- The `get_module_info` tool: issues `module.info` and always wraps the
reply under `status: success`, the reply going under `info`. -/
def get_module_info (post : Post) (st : ClientState) (module_name : String) :
    ToolResult :=
  let r := call_rpc post st "module.info" (.obj [("module", .str module_name)])
  ⟨.obj [("status", .str "success"), ("module", .str module_name),
         ("info", r.1)],
   [("module.info", .obj [("module", .str module_name)])], [], r.2⟩

end Tools

/-! ## Shared lemmas about Python dict operations -/

theorem dictGet_dictSet_self (d : List (String × JValue)) (k : String) (v : JValue) :
    dictGet? (dictSet d k v) k = some v := by
  induction d with
  | nil => simp [dictSet, dictGet?]
  | cons kv rest ih =>
      by_cases h : kv.1 = k
      · simp [dictSet, dictGet?, h]
      · simpa [dictSet, dictGet?, h] using ih

theorem dictGet_dictSet_ne (d : List (String × JValue)) (k k' : String) (v : JValue)
    (h : k' ≠ k) : dictGet? (dictSet d k v) k' = dictGet? d k' := by
  have h2 : ¬ k = k' := fun hh => h hh.symm
  induction d with
  | nil => simp [dictSet, dictGet?, h2]
  | cons kv rest ih =>
      obtain ⟨k0, v0⟩ := kv
      by_cases hk : k0 = k
      · have hk0 : ¬ k0 = k' := by
          rw [hk]
          exact h2
        simp [dictSet, dictGet?, hk, hk0, h2]
      · by_cases hk' : k0 = k'
        · simp [dictSet, dictGet?, hk, hk', h]
        · simp [dictSet, dictGet?, hk, hk', ih]

theorem dictGet_dictUpdate_of_none (d e : List (String × JValue)) (k : String)
    (h : dictGet? e k = none) : dictGet? (dictUpdate d e) k = dictGet? d k := by
  induction e generalizing d with
  | nil => simp [dictUpdate]
  | cons kv rest ih =>
      have hne : kv.1 ≠ k := by
        intro hh
        simp [dictGet?, hh] at h
      have hrest : dictGet? rest k = none := by
        simpa [dictGet?, hne] using h
      have : dictUpdate d (kv :: rest) = dictUpdate (dictSet d kv.1 kv.2) rest := by
        simp [dictUpdate]
      rw [this, ih _ hrest, dictGet_dictSet_ne _ _ _ _ (fun hh => hne hh.symm)]

theorem dictGet_eq_none_of_not_mem (d : List (String × JValue)) (k : String)
    (h : k ∉ d.map Prod.fst) : dictGet? d k = none := by
  induction d with
  | nil => simp [dictGet?]
  | cons kv rest ih =>
      simp only [List.map_cons, List.mem_cons, not_or] at h
      have h1 : ¬ kv.1 = k := fun hh => h.1 hh.symm
      simp [dictGet?, h1, ih h.2]

theorem dictGet_dictUpdate_of_some (d e : List (String × JValue)) (k : String)
    (v : JValue) (he : (e.map Prod.fst).Nodup) (h : dictGet? e k = some v) :
    dictGet? (dictUpdate d e) k = some v := by
  induction e generalizing d with
  | nil => simp [dictGet?] at h
  | cons kv rest ih =>
      have hstep : dictUpdate d (kv :: rest) = dictUpdate (dictSet d kv.1 kv.2) rest := by
        simp [dictUpdate]
      rcases List.nodup_cons.mp he with ⟨hnotmem, hrest⟩
      by_cases hk : kv.1 = k
      · have hrnone : dictGet? rest k = none := by
          apply dictGet_eq_none_of_not_mem
          rw [← hk]
          exact hnotmem
        have hv : kv.2 = v := by
          simpa [dictGet?, hk] using h
        rw [hstep, dictGet_dictUpdate_of_none _ _ _ hrnone, ← hk,
          dictGet_dictSet_self, hv]
      · have hr : dictGet? rest k = some v := by
          simpa [dictGet?, hk] using h
        rw [hstep]
        exact ih (dictSet d kv.1 kv.2) hrest hr

/-! ## Concrete fixtures used by witnesses and counterexamples -/

/-- A default client state: fresh, unauthenticated, default endpoint. -/
def st0 : ClientState := ⟨"http://127.0.0.1:55553", "", false, none⟩

/-- A transport that always raises (service unreachable). -/
def postDown : Post := fun _ => .exc "Connection refused"

/-- A `json.loads` oracle on which every input fails to parse. -/
def parseFail : Tools.ParseJson := fun _ => none

/-! ## Claims -/

/-- C3: for every run-exploit or generate-payload call whose
`additional_options` string is non-empty and not parseable as JSON, the
tool returns an envelope with status "error" and an "Invalid JSON"
message, and zero RPC calls are issued for that invocation (the client
state is also untouched). -/
theorem c3_invalid_json_aborts_before_rpc
    (post : Post) (parseJson : Tools.ParseJson) (st : ClientState)
    (save_dir : String) (a : Tools.ExploitArgs) (b : Tools.PayloadArgs)
    (ha : a.additional_options ≠ "") (hpa : parseJson a.additional_options = none)
    (hb : b.additional_options ≠ "") (hpb : parseJson b.additional_options = none) :
    Tools.run_exploit post parseJson st a =
      ⟨Tools.invalidJsonEnvelope, [], [], st⟩ ∧
    Tools.generate_payload post parseJson save_dir st b =
      ⟨Tools.invalidJsonEnvelope, [], [], st⟩ := by
  constructor
  · unfold Tools.run_exploit
    rw [if_pos ha, hpa]
  · unfold Tools.generate_payload
    rw [if_pos hb, hpb]

/-- C3 witness: a concrete bad-JSON call, evaluated. -/
theorem c3_witness :
    ("rhosts=x" ≠ "" ∧ parseFail "rhosts=x" = none ∧
     "LPORT 9" ≠ "" ∧ parseFail "LPORT 9" = none) ∧
    (Tools.run_exploit postDown parseFail st0
        ⟨"exploit/windows/smb/ms17_010", "10.0.0.1", "", "", 4444, "rhosts=x", true⟩ =
      ⟨Tools.invalidJsonEnvelope, [], [], st0⟩ ∧
     Tools.generate_payload postDown parseFail "./payloads" st0
        ⟨"windows/meterpreter/reverse_tcp", "exe", "", 4444, "LPORT 9"⟩ =
      ⟨Tools.invalidJsonEnvelope, [], [], st0⟩) :=
  ⟨⟨by decide, rfl, by decide, rfl⟩,
   c3_invalid_json_aborts_before_rpc postDown parseFail st0 "./payloads"
     ⟨"exploit/windows/smb/ms17_010", "10.0.0.1", "", "", 4444, "rhosts=x", true⟩
     ⟨"windows/meterpreter/reverse_tcp", "exe", "", 4444, "LPORT 9"⟩
     (by decide) rfl (by decide) rfl⟩

/-- C9: every action tool that reaches its RPC call without an internal
exception (send-session-command, kill-session, get-module-info, and
run-exploit past the check gate, here with `run_check = false`) returns a
top-level status "success" for every possible RPC reply — in particular
when the nested reply is itself an error envelope — the reply being
visible only in the nested result/info field. -/
theorem c9_action_tools_always_success
    (post : Post) (st : ClientState) (sid : Int) (cmd mname : String)
    (a : Tools.ExploitArgs) (options : List (String × JValue))
    (hrc : a.run_check = false) :
    jGet (Tools.send_session_command post st sid cmd).envelope "status" =
        some (.str "success") ∧
    jGet (Tools.send_session_command post st sid cmd).envelope "result" =
        some (Client.session_command post st sid cmd).1 ∧
    jGet (Tools.kill_session post st sid).envelope "status" =
        some (.str "success") ∧
    jGet (Tools.kill_session post st sid).envelope "result" =
        some (Client.kill_session post st sid).1 ∧
    jGet (Tools.get_module_info post st mname).envelope "status" =
        some (.str "success") ∧
    jGet (Tools.get_module_info post st mname).envelope "info" =
        some (call_rpc post st "module.info" (.obj [("module", .str mname)])).1 ∧
    jGet (Tools.run_exploit_core post st a options).envelope "status" =
        some (.str "success") := by
  refine ⟨rfl, ?_, rfl, ?_, rfl, ?_, ?_⟩
  · simp [Tools.send_session_command, jGet, dictGet?]
  · simp [Tools.kill_session, jGet, dictGet?]
  · simp [Tools.get_module_info, jGet, dictGet?]
  · unfold Tools.run_exploit_core
    rw [hrc]
    simp [Client.execute_exploit, jGet, dictGet?]

/-- C9 witness: concrete action-tool calls against a dead transport, whose
nested replies are error envelopes while the top-level status stays
"success". -/
theorem c9_witness :
    jGet (Tools.send_session_command postDown st0 1 "whoami").envelope "status" =
        some (.str "success") ∧
    jGet (Tools.send_session_command postDown st0 1 "whoami").envelope "result" =
        some (Client.session_command postDown st0 1 "whoami").1 ∧
    jGet (Tools.kill_session postDown st0 1).envelope "status" =
        some (.str "success") ∧
    jGet (Tools.kill_session postDown st0 1).envelope "result" =
        some (Client.kill_session postDown st0 1).1 ∧
    jGet (Tools.get_module_info postDown st0 "exploit/test").envelope "status" =
        some (.str "success") ∧
    jGet (Tools.get_module_info postDown st0 "exploit/test").envelope "info" =
        some (call_rpc postDown st0 "module.info"
          (.obj [("module", .str "exploit/test")])).1 ∧
    jGet (Tools.run_exploit_core postDown st0
        ⟨"exploit/test", "10.0.0.1", "", "", 4444, "", false⟩ []).envelope "status" =
        some (.str "success") :=
  c9_action_tools_always_success postDown st0 1 "whoami" "exploit/test"
    ⟨"exploit/test", "10.0.0.1", "", "", 4444, "", false⟩ [] rfl

/-- A transport that always answers HTTP 500: `call_rpc` turns every call
into the error envelope with message "HTTP 500". -/
def post500 : Post := fun _ => .response 500 (.ok .null)

/-- The run-exploit arguments used in the C1 counterexample. -/
def c1args : Tools.ExploitArgs :=
  ⟨"exploit/windows/smb/ms17_010", "10.0.0.1", "", "", 4444, "", true⟩

/-- C1 counterexample: with `run_check = true` and the check RPC failing at
the transport (reply is the error envelope, with no "result" field and no
status at all), the tool does NOT short-circuit with "check_failed": it
proceeds to `module.execute` and reports top-level status "success" —
refuting the claim that every non-"exploitable" check outcome yields
"check_failed" with no execute call. -/
theorem c1_counterexample :
    jGet (Tools.run_exploit post500 parseFail st0 c1args).envelope "status" =
      some (.str "success") ∧
    (Tools.run_exploit post500 parseFail st0 c1args).calls.map Prod.fst =
      ["module.check", "module.execute"] ∧
    some (JValue.str "success") ≠ some (JValue.str "check_failed") :=
  ⟨rfl, rfl, by simp⟩

/-- C1 (amended): with `run_check = true`, the check gate behaves as
follows.  A check reply that is a mapping WITHOUT a "result" field — in
particular every transport/RPC error envelope — does not stop execution:
`module.execute` is still issued and the tool reports "success".  A reply
whose "result" field is a mapping short-circuits with "check_failed"
(carrying the raw check reply, with no execute call) exactly when its
"status" entry is not the exact string "exploitable"; when it is exactly
"exploitable", execution proceeds. -/
theorem c1_check_gate (post : Post) (st : ClientState) (a : Tools.ExploitArgs)
    (options : List (String × JValue)) (kvs : List (String × JValue))
    (hrc : a.run_check = true)
    (hc : (call_rpc post st "module.check"
            (Client.exploitParams a.exploit_name options)).1 = .obj kvs) :
    (dictGet? kvs "result" = none →
       jGet (Tools.run_exploit_core post st a options).envelope "status" =
         some (.str "success") ∧
       (Tools.run_exploit_core post st a options).calls.map Prod.fst =
         ["module.check", "module.execute"]) ∧
    (∀ attrs, dictGet? kvs "result" = some (.obj attrs) →
       isStrEq ((dictGet? attrs "status").getD .null) "exploitable" = false →
       (Tools.run_exploit_core post st a options).envelope =
         .obj [("status", .str "check_failed"),
               ("message", .str "Target is not vulnerable or check failed"),
               ("check_result", .obj kvs)] ∧
       (Tools.run_exploit_core post st a options).calls.map Prod.fst =
         ["module.check"]) ∧
    (∀ attrs, dictGet? kvs "result" = some (.obj attrs) →
       dictGet? attrs "status" = some (.str "exploitable") →
       jGet (Tools.run_exploit_core post st a options).envelope "status" =
         some (.str "success") ∧
       (Tools.run_exploit_core post st a options).calls.map Prod.fst =
         ["module.check", "module.execute"]) := by
  refine ⟨?_, ?_, ?_⟩
  · intro hnone
    simp only [Tools.run_exploit_core, hrc, if_true, hc]
    simp [pyIn, hnone, Client.execute_exploit, jGet, dictGet?]
  · intro attrs hsome hne
    simp only [Tools.run_exploit_core, hrc, if_true, hc]
    simp [pyIn, hsome, pyGetItem, pyDictGet, hne, jGet, dictGet?]
  · intro attrs hsome hexp
    simp only [Tools.run_exploit_core, hrc, if_true, hc]
    simp [pyIn, hsome, pyGetItem, pyDictGet, hexp, isStrEq,
      Client.execute_exploit, jGet, dictGet?]

/-- A mock whose check result has status "unknown". -/
def postCheckUnknown : Post :=
  fun _ => .response 200 (.ok (.obj [("result", .obj [("status", .str "unknown")])]))

/-- C1 witness: a concrete check reply with status "unknown" short-circuits
with "check_failed" carrying the raw check result and never executes. -/
theorem c1_witness :
    (c1args.run_check = true ∧
     (call_rpc postCheckUnknown st0 "module.check"
        (Client.exploitParams c1args.exploit_name (Tools.exploitBaseOptions c1args))).1 =
       .obj [("result", .obj [("status", .str "unknown")])]) ∧
    ((Tools.run_exploit_core postCheckUnknown st0 c1args
        (Tools.exploitBaseOptions c1args)).envelope =
      .obj [("status", .str "check_failed"),
            ("message", .str "Target is not vulnerable or check failed"),
            ("check_result", .obj [("result", .obj [("status", .str "unknown")])])] ∧
     (Tools.run_exploit_core postCheckUnknown st0 c1args
        (Tools.exploitBaseOptions c1args)).calls.map Prod.fst = ["module.check"]) :=
  ⟨⟨rfl, rfl⟩,
   (c1_check_gate postCheckUnknown st0 c1args (Tools.exploitBaseOptions c1args)
      [("result", .obj [("status", .str "unknown")])] rfl rfl).2.1
     [("status", .str "unknown")] rfl rfl⟩

/-- A mock `session.list` transport whose single session carries its own
conflicting "id" attribute. -/
def postSessionIdClash : Post :=
  fun _ => .response 200 (.ok (.obj [("result",
    .obj [("1", .obj [("id", .str "x"), ("type", .str "shell")])])]))

/-- C2 counterexample: on the reply mapping session id "1" to attributes
containing their own "id": "x", the element produced by `{"id": k, **v}`
carries "x" — the spread attribute overwrites the remote-assigned key —
refuting the claim that the mapping key wins. -/
theorem c2_counterexample :
    (Client.list_sessions postSessionIdClash st0).1 =
      .ok (.arr [.obj [("id", .str "x"), ("type", .str "shell")]]) ∧
    JValue.str "x" ≠ JValue.str "1" :=
  ⟨rfl, by simp⟩

/-- Helper: the `list_sessions` comprehension over a mapping whose values
are all attribute mappings. -/
theorem mergeSessionEntries_objs
    (sessions : List (String × List (String × JValue))) :
    Client.mergeSessionEntries (sessions.map (fun p => (p.1, JValue.obj p.2))) =
      .ok (sessions.map (fun p => .obj (dictUpdate [("id", .str p.1)] p.2))) := by
  induction sessions with
  | nil => rfl
  | cons p rest ih =>
      simp [Client.mergeSessionEntries, Client.mergeSessionEntry, ih]

/-- C2 (amended): for every `session.list` reply whose result is a mapping
from id to attribute mapping, `list_sessions` returns one element per
entry, each the dict display `{"id": k, **v}` — the attribute mapping laid
over the entry id; consequently, when an attribute mapping itself carries
an "id" key, the ATTRIBUTE value wins over the remote-assigned mapping
key, which survives only when the attributes have no "id" key. -/
theorem c2_list_sessions (post : Post) (st : ClientState)
    (kvs : List (String × JValue))
    (sessions : List (String × List (String × JValue)))
    (hreply : (call_rpc post st "session.list" (.obj [])).1 = .obj kvs)
    (hres : dictGet? kvs "result" =
      some (.obj (sessions.map (fun p => (p.1, JValue.obj p.2))))) :
    (Client.list_sessions post st).1 =
      .ok (.arr (sessions.map (fun p => .obj (dictUpdate [("id", .str p.1)] p.2)))) ∧
    (∀ p ∈ sessions, (p.2.map Prod.fst).Nodup →
      dictGet? (dictUpdate [("id", .str p.1)] p.2) "id" =
        some ((dictGet? p.2 "id").getD (.str p.1))) := by
  constructor
  · simp only [Client.list_sessions, hreply]
    simp [pyIn, hres, pyGetItem, mergeSessionEntries_objs]
  · intro p _ hnodup
    cases hid : dictGet? p.2 "id" with
    | none =>
        rw [dictGet_dictUpdate_of_none _ _ _ hid]
        simp [dictGet?]
    | some v =>
        rw [dictGet_dictUpdate_of_some _ _ _ _ hnodup hid]
        simp

/-- The spec example reply: two sessions with ids "1" and "2". -/
def postTwoSessions : Post :=
  fun _ => .response 200 (.ok (.obj [("result",
    .obj [("1", .obj [("type", .str "shell")]),
          ("2", .obj [("type", .str "meterpreter")])])]))

/-- C2 witness: the spec's two-session example — each element merges its
numeric-string id under "id" with the attributes, the id surviving since
the attributes carry no "id" key. -/
theorem c2_witness :
    ((call_rpc postTwoSessions st0 "session.list" (.obj [])).1 =
       .obj [("result", .obj [("1", .obj [("type", .str "shell")]),
                              ("2", .obj [("type", .str "meterpreter")])])] ∧
     dictGet? [("result", .obj [("1", .obj [("type", .str "shell")]),
                                ("2", .obj [("type", .str "meterpreter")])])] "result" =
       some (.obj ([("1", [("type", JValue.str "shell")]),
                    ("2", [("type", JValue.str "meterpreter")])].map
         (fun p => (p.1, JValue.obj p.2))))) ∧
    (Client.list_sessions postTwoSessions st0).1 =
      .ok (.arr [.obj [("id", .str "1"), ("type", .str "shell")],
                 .obj [("id", .str "2"), ("type", .str "meterpreter")]]) :=
  ⟨⟨rfl, rfl⟩,
   (c2_list_sessions postTwoSessions st0
      [("result", .obj [("1", .obj [("type", .str "shell")]),
                        ("2", .obj [("type", .str "meterpreter")])])]
      [("1", [("type", .str "shell")]), ("2", [("type", .str "meterpreter")])]
      rfl rfl).1⟩

/-- Helper: every RPC call issued by the check/execute flow of
`run_exploit` carries exactly the module name and the options dict the
flow was entered with. -/
theorem run_exploit_core_call_params (post : Post) (st : ClientState)
    (a : Tools.ExploitArgs) (options : List (String × JValue)) :
    ∀ c ∈ (Tools.run_exploit_core post st a options).calls,
      c.2 = Client.exploitParams a.exploit_name options := by
  intro c hc
  by_cases hrc : a.run_check
  · simp only [Tools.run_exploit_core, hrc, if_true] at hc
    cases hgate : pyIn "result"
        (call_rpc post st "module.check"
          (Client.exploitParams a.exploit_name options)).1 with
    | error msg =>
        simp only [hgate] at hc
        simp at hc
        simp [hc]
    | ok b =>
        simp only [hgate] at hc
        cases b with
        | false =>
            simp at hc
            rcases hc with h | h <;> simp [h]
        | true =>
            cases hitem : pyGetItem
                (call_rpc post st "module.check"
                  (Client.exploitParams a.exploit_name options)).1 "result" with
            | error msg =>
                simp only [hitem] at hc
                simp at hc
                simp [hc]
            | ok r =>
                simp only [hitem] at hc
                cases hget : pyDictGet r "status" .null with
                | error msg =>
                    simp only [hget] at hc
                    simp at hc
                    simp [hc]
                | ok s =>
                    simp only [hget] at hc
                    by_cases hs : isStrEq s "exploitable" = true
                    · simp only [hs, if_true] at hc
                      simp at hc
                      rcases hc with h | h <;> simp [h]
                    · simp only [hs, if_false] at hc
                      simp at hc
                      simp [hc]
  · simp only [Tools.run_exploit_core, hrc, if_false] at hc
    simp at hc
    simp [hc]

/-- Helper: whichever branch the generation flow takes, `generate_payload`
issues exactly one RPC call, `module.execute` with the module name, the
options it was entered with, and the Format directive. -/
theorem generate_payload_core_calls (post : Post) (save_dir : String)
    (st : ClientState) (a : Tools.PayloadArgs)
    (options : List (String × JValue)) :
    (Tools.generate_payload_core post save_dir st a options).calls =
      [("module.execute",
        Client.generateParams a.payload_name a.format_type options)] := by
  simp only [Tools.generate_payload_core]
  repeat' split
  all_goals rfl

/-- C4: in the option merges of BOTH `run_exploit` and `generate_payload`,
a key present in the parsed `additional_options` mapping takes precedence
over the same-named entry built from explicit parameters (dict `update`,
last-write-wins); keys the override does not mention keep the
explicitly-built value (unknown override keys thus pass through
unchanged); and every RPC call either tool issues carries exactly its
merged options dict. -/
theorem c4_override_wins (post : Post) (parseJson : Tools.ParseJson)
    (st : ClientState) (save_dir : String) (a : Tools.ExploitArgs)
    (b : Tools.PayloadArgs) (extraE extraP : List (String × JValue))
    (ha : a.additional_options ≠ "")
    (hpa : parseJson a.additional_options = some (.obj extraE))
    (hna : (extraE.map Prod.fst).Nodup)
    (hb : b.additional_options ≠ "")
    (hpb : parseJson b.additional_options = some (.obj extraP))
    (hnb : (extraP.map Prod.fst).Nodup) :
    (∀ k v, dictGet? extraE k = some v →
       dictGet? (dictUpdate (Tools.exploitBaseOptions a) extraE) k = some v) ∧
    (∀ k, dictGet? extraE k = none →
       dictGet? (dictUpdate (Tools.exploitBaseOptions a) extraE) k =
         dictGet? (Tools.exploitBaseOptions a) k) ∧
    (∀ c ∈ (Tools.run_exploit post parseJson st a).calls,
       c.2 = Client.exploitParams a.exploit_name
         (dictUpdate (Tools.exploitBaseOptions a) extraE)) ∧
    (∀ k v, dictGet? extraP k = some v →
       dictGet? (dictUpdate (Tools.payloadBaseOptions b) extraP) k = some v) ∧
    (∀ k, dictGet? extraP k = none →
       dictGet? (dictUpdate (Tools.payloadBaseOptions b) extraP) k =
         dictGet? (Tools.payloadBaseOptions b) k) ∧
    (Tools.generate_payload post parseJson save_dir st b).calls =
      [("module.execute", Client.generateParams b.payload_name b.format_type
          (dictUpdate (Tools.payloadBaseOptions b) extraP))] := by
  refine ⟨?_, ?_, ?_, ?_, ?_, ?_⟩
  · intro k v hk
    exact dictGet_dictUpdate_of_some _ _ _ _ hna hk
  · intro k hk
    exact dictGet_dictUpdate_of_none _ _ _ hk
  · have hstep : Tools.run_exploit post parseJson st a =
        Tools.run_exploit_core post st a
          (dictUpdate (Tools.exploitBaseOptions a) extraE) := by
      simp only [Tools.run_exploit, ha, hpa]
      simp [ha]
    rw [hstep]
    exact run_exploit_core_call_params post st a _
  · intro k v hk
    exact dictGet_dictUpdate_of_some _ _ _ _ hnb hk
  · intro k hk
    exact dictGet_dictUpdate_of_none _ _ _ hk
  · have hstep : Tools.generate_payload post parseJson save_dir st b =
        Tools.generate_payload_core post save_dir st b
          (dictUpdate (Tools.payloadBaseOptions b) extraP) := by
      simp only [Tools.generate_payload, hb, hpb]
      simp [hb]
    rw [hstep]
    exact generate_payload_core_calls post save_dir st b _

/-- The parse oracle for the C4 witness: the override blob parses to the
single-entry mapping of LPORT to "5555". -/
def parseLport5555 : Tools.ParseJson :=
  fun s => if s = "LPORT json" then
    some (.obj [("LPORT", .str "5555")]) else none

/-- The run-exploit arguments of the C4 witness: explicit lport 4444 plus
an override blob. -/
def c4args : Tools.ExploitArgs :=
  ⟨"exploit/test", "10.0.0.1", "", "", 4444, "LPORT json", false⟩

/-- The generate-payload arguments of the C4 witness: explicit lport 4444
plus the same override blob. -/
def c4pargs : Tools.PayloadArgs :=
  ⟨"windows/meterpreter/reverse_tcp", "exe", "", 4444, "LPORT json"⟩

/-- C4 witness: in both tools, explicit lport 4444 merged with override
LPORT "5555" yields LPORT "5555" (run-exploit also keeping RHOSTS), and
generate-payload's single RPC call carries exactly the merged dict. -/
theorem c4_witness :
    ("LPORT json" ≠ "" ∧
     parseLport5555 "LPORT json" = some (.obj [("LPORT", .str "5555")]) ∧
     ([("LPORT", JValue.str "5555")].map Prod.fst).Nodup) ∧
    (dictGet? (dictUpdate (Tools.exploitBaseOptions c4args)
        [("LPORT", .str "5555")]) "LPORT" = some (.str "5555") ∧
     dictGet? (dictUpdate (Tools.exploitBaseOptions c4args)
        [("LPORT", .str "5555")]) "RHOSTS" = some (.str "10.0.0.1")) ∧
    (dictGet? (dictUpdate (Tools.payloadBaseOptions c4pargs)
        [("LPORT", .str "5555")]) "LPORT" = some (.str "5555") ∧
     (Tools.generate_payload postDown parseLport5555 "./payloads" st0
        c4pargs).calls =
       [("module.execute", Client.generateParams "windows/meterpreter/reverse_tcp"
           "exe" (dictUpdate (Tools.payloadBaseOptions c4pargs)
             [("LPORT", .str "5555")]))]) :=
  ⟨⟨by decide, rfl, by simp⟩,
   ⟨(c4_override_wins postDown parseLport5555 st0 "./payloads" c4args c4pargs
       [("LPORT", .str "5555")] [("LPORT", .str "5555")]
       (by decide) rfl (by simp) (by decide) rfl (by simp)).1 "LPORT"
      (.str "5555") rfl,
    (c4_override_wins postDown parseLport5555 st0 "./payloads" c4args c4pargs
       [("LPORT", .str "5555")] [("LPORT", .str "5555")]
       (by decide) rfl (by simp) (by decide) rfl (by simp)).2.1 "RHOSTS" rfl⟩,
   ⟨(c4_override_wins postDown parseLport5555 st0 "./payloads" c4args c4pargs
       [("LPORT", .str "5555")] [("LPORT", .str "5555")]
       (by decide) rfl (by simp) (by decide) rfl (by simp)).2.2.2.1 "LPORT"
      (.str "5555") rfl,
    (c4_override_wins postDown parseLport5555 st0 "./payloads" c4args c4pargs
       [("LPORT", .str "5555")] [("LPORT", .str "5555")]
       (by decide) rfl (by simp) (by decide) rfl (by simp)).2.2.2.2.2⟩⟩

/-- An authenticated client state (token held), used where the lazy
reconnect is irrelevant. -/
def stTok : ClientState := ⟨"http://127.0.0.1:55553", "", false, some (.str "tok")⟩

/-- A mock transport answering HTTP 201 Created with a parseable body. -/
def post201 : Post := fun _ => .response 201 (.ok (.obj [("result", .str "ok")]))

/-- C5 counterexample: an HTTP 201 response — a 2xx success at the HTTP
level — with a parseable body is NOT returned as that body: `call_rpc`
compares the status to 200 exactly and yields the error envelope
"HTTP 201", refuting the claim's all-2xx clause. -/
theorem c5_counterexample :
    (call_rpc post201 stTok "module.info" (.obj [])).1 =
      .obj [("error", .str "HTTP 201")] ∧
    JValue.obj [("error", .str "HTTP 201")] ≠ .obj [("result", .str "ok")] :=
  ⟨rfl, by simp⟩

/-- C5 (amended): `call_rpc` never raises past its boundary (it is a total
function) and classifies the transport outcome of its posted payload as
follows: a raised network/transport exception yields the error envelope
with the failure detail; a response with HTTP status other than EXACTLY
200 — including other 2xx codes — yields the error envelope "HTTP
<status>"; a 200 response with a parseable body returns that body
verbatim, even when the body itself is a nested remote error, which is
passed through unreinterpreted; a 200 response whose body fails to parse
yields the error envelope with the parse failure detail. -/
theorem c5_classification (post : Post) (st : ClientState) (method : String)
    (params : JValue) :
    (∀ msg, post (rpcPayload (ensureConnected post st) method params) = .exc msg →
       (call_rpc post st method params).1 = .obj [("error", .str msg)]) ∧
    (∀ status body,
       post (rpcPayload (ensureConnected post st) method params) =
         .response status body → status ≠ 200 →
       (call_rpc post st method params).1 =
         .obj [("error", .str ("HTTP " ++ toString status))]) ∧
    (∀ v, post (rpcPayload (ensureConnected post st) method params) =
         .response 200 (.ok v) →
       (call_rpc post st method params).1 = v) ∧
    (∀ msg, post (rpcPayload (ensureConnected post st) method params) =
         .response 200 (.error msg) →
       (call_rpc post st method params).1 = .obj [("error", .str msg)]) := by
  refine ⟨?_, ?_, ?_, ?_⟩
  · intro msg h
    simp only [call_rpc, h]
  · intro status body h hs
    simp only [call_rpc, h]
    rw [if_neg hs]
  · intro v h
    simp only [call_rpc, h, if_pos rfl]
    simp
  · intro msg h
    simp only [call_rpc, h, if_pos rfl]
    simp

/-- A mock transport answering HTTP 200 whose body is itself a remote
error object. -/
def post200NestedErr : Post :=
  fun _ => .response 200 (.ok (.obj [("error", .str "Msf::RPC server error")]))

/-- C5 witness: a 200 reply whose body is a nested remote error object is
returned verbatim as the result, not reinterpreted. -/
theorem c5_witness :
    post200NestedErr (rpcPayload (ensureConnected post200NestedErr stTok)
        "module.info" (.obj [])) =
      .response 200 (.ok (.obj [("error", .str "Msf::RPC server error")])) ∧
    (call_rpc post200NestedErr stTok "module.info" (.obj [])).1 =
      .obj [("error", .str "Msf::RPC server error")] :=
  ⟨rfl,
   (c5_classification post200NestedErr stTok "module.info" (.obj [])).2.2.1
     (.obj [("error", .str "Msf::RPC server error")]) rfl⟩

/-- The C6 claim's success criterion on the parsed login body: a token
field under result (plain object lookups, per the claim's words
"structurally valid body containing a token field under result"). -/
def bodyToken (v : JValue) : Option JValue :=
  match jGet v "result" with
  | some r => jGet r "token"
  | none => none

/-- The C6 claim's success criterion on the whole login outcome: HTTP
status 200 and a parseable, structurally valid body carrying the token. -/
def loginSuccessToken (o : HttpOutcome) : Option JValue :=
  match o with
  | .exc _ => none
  | .response status body =>
      if status = 200 then
        match body with
        | .ok v => bodyToken v
        | .error _ => none
      else none

/-- Helper: the body-inspection step of `connect` succeeds exactly on the
claim's criterion — all Python shape errors (`in` on a non-container,
subscripting a non-dict) are caught into the failure outcome, agreeing
with the plain-lookup reading. -/
theorem connectBody_eq (st : ClientState) (v : JValue) :
    connectBody st v =
      match bodyToken v with
      | some t => (true, { st with token := some t })
      | none => (false, st) := by
  cases v with
  | null => rfl
  | bool b => rfl
  | num n => rfl
  | str s =>
      unfold connectBody bodyToken
      cases hb : strContains s "result" <;>
        simp [pyIn, hb, pyGetItem, jGet]
  | arr xs =>
      unfold connectBody bodyToken
      cases hb : xs.any (fun e => isStrEq e "result") <;>
        simp [pyIn, hb, pyGetItem, jGet]
  | obj kvs =>
      unfold connectBody bodyToken
      cases hres : dictGet? kvs "result" with
      | none => simp [pyIn, hres, jGet]
      | some r =>
          simp only [pyIn, hres, jGet, Option.isSome_some, pyGetItem]
          cases r with
          | null => rfl
          | bool b => rfl
          | num n => rfl
          | str s =>
              cases hb : strContains s "token" <;>
                simp [pyIn, hb, pyGetItem, jGet]
          | arr xs =>
              cases hb : xs.any (fun e => isStrEq e "token") <;>
                simp [pyIn, hb, pyGetItem, jGet]
          | obj attrs =>
              cases htok : dictGet? attrs "token" <;>
                simp [pyIn, htok, pyGetItem, jGet]

/-- Helper: `connect` as a whole against the claim's criterion. -/
theorem connect_eq (post : Post) (st : ClientState) :
    connect post st =
      match loginSuccessToken (post (authData st)) with
      | some t => (true, { st with token := some t })
      | none => (false, st) := by
  unfold connect loginSuccessToken
  cases post (authData st) with
  | exc msg => rfl
  | response status body =>
      by_cases hs : status = 200
      · subst hs
        simp only [if_pos rfl]
        cases body with
        | error msg => rfl
        | ok v => exact connectBody_eq st v
      · simp only [if_neg hs]

/-- C6: `connect` stores the token and reports success exactly when the
login response has HTTP status 200 and a structurally valid body carrying
a token field under result; on any transport failure, malformed or
non-200 response, or body missing the token, it returns failure without
raising (it is total) and leaves the state — hence the token — untouched;
and from an unauthenticated state with such a failing login, a subsequent
`call_rpc` whose own round trip raises returns an error envelope rather
than a fault. -/
theorem c6_connect_token (post : Post) (st : ClientState) :
    (∀ t, loginSuccessToken (post (authData st)) = some t →
       connect post st = (true, { st with token := some t })) ∧
    (loginSuccessToken (post (authData st)) = none →
       connect post st = (false, st)) ∧
    (st.token = none → loginSuccessToken (post (authData st)) = none →
       ensureConnected post st = st ∧
       (∀ method params msg, post (rpcPayload st method params) = .exc msg →
          (call_rpc post st method params).1 = .obj [("error", .str msg)])) := by
  refine ⟨?_, ?_, ?_⟩
  · intro t ht
    rw [connect_eq, ht]
  · intro hn
    rw [connect_eq, hn]
  · intro htok hn
    have he : ensureConnected post st = st := by
      unfold ensureConnected
      rw [htok]
      simp [connect_eq, hn]
    refine ⟨he, ?_⟩
    intro method params msg h
    simp only [call_rpc, he, h]

/-- A mock transport that issues a token on login. -/
def postLogin : Post :=
  fun _ => .response 200 (.ok (.obj [("result", .obj [("token", .str "TOKEN123")])]))

/-- A mock transport rejecting the login with HTTP 401. -/
def post401 : Post := fun _ => .response 401 (.ok (.obj [("error", .str "auth")]))

/-- C6 witness: a valid login stores the token and succeeds; an HTTP 401
login fails, leaves the token unset, and a subsequent invoke over a dead
transport returns an error envelope. -/
theorem c6_witness :
    (loginSuccessToken (postLogin (authData st0)) = some (.str "TOKEN123") ∧
     connect postLogin st0 = (true, { st0 with token := some (.str "TOKEN123") })) ∧
    (loginSuccessToken (post401 (authData st0)) = none ∧
     connect post401 st0 = (false, st0)) ∧
    (st0.token = none ∧
     loginSuccessToken (postDown (authData st0)) = none ∧
     ensureConnected postDown st0 = st0 ∧
     (call_rpc postDown st0 "module.info" (.obj [])).1 =
       .obj [("error", .str "Connection refused")]) :=
  ⟨⟨rfl, (c6_connect_token postLogin st0).1 (.str "TOKEN123") rfl⟩,
   ⟨rfl, (c6_connect_token post401 st0).2.1 rfl⟩,
   ⟨rfl, rfl, ((c6_connect_token postDown st0).2.2 rfl rfl).1,
    ((c6_connect_token postDown st0).2.2 rfl rfl).2 "module.info" (.obj [])
      "Connection refused" rfl⟩⟩

/-- A mock transport whose module.exploits reply has a non-iterable
result. -/
def postExploitsMalformed : Post :=
  fun _ => .response 200 (.ok (.obj [("result", .num 42)]))

/-- C8 counterexample: on a malformed Result (the "result" field an
integer) with a non-empty search term, `list_exploits` does not return an
empty sequence — the comprehension raises a `TypeError` that propagates
out of the façade (there is no try-block in `client.list_exploits`),
refuting the claim's malformed-Result clause. -/
theorem c8_counterexample :
    (Client.list_exploits postExploitsMalformed st0 "a").1 =
      Except.error "TypeError: object is not iterable" ∧
    (Except.error "TypeError: object is not iterable" : Except String JValue) ≠
      Except.ok (.arr []) :=
  ⟨rfl, by simp⟩

/-- The filter predicate of `list_exploits`: the lower-cased name contains
the (already lower-cased) search needle. -/
def matchesSearch (needle : String) (e : JValue) : Bool :=
  match e with
  | .str s => strContains (strLower s) needle
  | _ => false

/-- Helper: on a list of string names, the comprehension is an ordinary
order-preserving filter by case-insensitive substring containment. -/
theorem pyFilterContains_strs (needle : String) (xs : List JValue)
    (hstr : ∀ e ∈ xs, ∃ s, e = JValue.str s) :
    pyFilterContains needle xs = .ok (xs.filter (matchesSearch needle)) := by
  induction xs with
  | nil => rfl
  | cons e rest ih =>
      obtain ⟨s, rfl⟩ := hstr e (by simp)
      have ih2 := ih (fun e he => hstr e (by simp [he]))
      unfold pyFilterContains
      rw [ih2]
      by_cases hb : strContains (strLower s) needle <;>
        simp [hb, List.filter_cons, matchesSearch]

/-- C8 (amended): for every `module.exploits` reply whose Result is a list
of names and every non-empty search term, `list_exploits` returns exactly
the names containing the search term as a case-insensitive substring, in
their original order; for every reply WITHOUT a "result" field (in
particular every transport Error envelope) it returns an empty sequence.
(A present-but-malformed "result" value is NOT degraded to an empty
sequence — see the counterexample.) -/
theorem c8_list_exploits_filter (post : Post) (st : ClientState) (term : String)
    (kvs : List (String × JValue))
    (hreply : (call_rpc post st "module.exploits" (.obj [])).1 = .obj kvs) :
    (dictGet? kvs "result" = none →
       (Client.list_exploits post st term).1 = .ok (.arr [])) ∧
    (∀ names, dictGet? kvs "result" = some (.arr names) →
       (∀ e ∈ names, ∃ s, e = JValue.str s) → term ≠ "" →
       (Client.list_exploits post st term).1 =
         .ok (.arr (names.filter (matchesSearch (strLower term))))) := by
  constructor
  · intro hnone
    simp only [Client.list_exploits, hreply]
    simp [pyIn, hnone]
  · intro names hsome hstr hterm
    simp only [Client.list_exploits, hreply]
    simp [pyIn, hsome, pyGetItem, pyIter, hterm,
      pyFilterContains_strs (strLower term) names hstr]

/-- The spec's candidate list for the C8 witness. -/
def postSmbCandidates : Post :=
  fun _ => .response 200 (.ok (.obj [("result",
    .arr [.str "exploit/windows/smb/ms17_010", .str "exploit/unix/ftp"])]))

/-- C8 witness: searching the spec's candidate list with the upper-cased
term "SMB" keeps only "exploit/windows/smb/ms17_010" (case-insensitive,
order preserved). -/
theorem c8_witness :
    ((call_rpc postSmbCandidates st0 "module.exploits" (.obj [])).1 =
       .obj [("result", .arr [.str "exploit/windows/smb/ms17_010",
                              .str "exploit/unix/ftp"])] ∧
     ("SMB" : String) ≠ "") ∧
    (Client.list_exploits postSmbCandidates st0 "SMB").1 =
      .ok (.arr [.str "exploit/windows/smb/ms17_010"]) :=
  ⟨⟨rfl, by decide⟩,
   (c8_list_exploits_filter postSmbCandidates st0 "SMB"
      [("result", .arr [.str "exploit/windows/smb/ms17_010",
                        .str "exploit/unix/ftp"])] rfl).2
     [.str "exploit/windows/smb/ms17_010", .str "exploit/unix/ftp"] rfl
     (by
       intro e he
       rcases List.mem_cons.mp he with h | he2
       · exact ⟨_, h⟩
       · rcases List.mem_cons.mp he2 with h | he3
         · exact ⟨_, h⟩
         · cases he3)
     (by decide)⟩

/-- C10: for every successful list-exploits / list-payloads tool call
(the façade having returned a list), the envelope's "count" field is the
FULL number of filtered matches while the shown array is truncated to the
first 50; hence past 50 matches the count strictly exceeds the number of
entries returned. -/
theorem c10_count_vs_truncation (post : Post) (st : ClientState)
    (term platform arch : String) (xs ys : List JValue)
    (hx : (Client.list_exploits post st term).1 = .ok (.arr xs))
    (hy : (Client.list_payloads post st platform arch).1 = .ok (.arr ys)) :
    (Tools.list_exploits post st term).1 =
      .obj [("status", .str "success"), ("count", .num xs.length),
            ("exploits", .arr (xs.take 50))] ∧
    (Tools.list_payloads post st platform arch).1 =
      .obj [("status", .str "success"), ("count", .num ys.length),
            ("payloads", .arr (ys.take 50))] ∧
    (50 < xs.length → (xs.take 50).length < xs.length) ∧
    (50 < ys.length → (ys.take 50).length < ys.length) := by
  refine ⟨?_, ?_, ?_, ?_⟩
  · simp only [Tools.list_exploits, hx]
    simp [pyLen, pySlice]
  · simp only [Tools.list_payloads, hy]
    simp [pyLen, pySlice]
  · intro h
    simp [List.length_take]
    omega
  · intro h
    simp [List.length_take]
    omega

/-- A mock transport advertising sixty modules. -/
def postSixty : Post :=
  fun _ => .response 200 (.ok (.obj [("result",
    .arr (List.replicate 60 (.str "exploit/x")))]))

/-- C10 witness: sixty matches yield count 60 but only the first 50
entries in the array. -/
theorem c10_witness :
    ((Client.list_exploits postSixty st0 "").1 =
       .ok (.arr (List.replicate 60 (.str "exploit/x"))) ∧
     (Client.list_payloads postSixty st0 "" "").1 =
       .ok (.arr (List.replicate 60 (.str "exploit/x")))) ∧
    (Tools.list_exploits postSixty st0 "").1 =
      .obj [("status", .str "success"),
            ("count", .num (List.replicate 60 (JValue.str "exploit/x")).length),
            ("exploits", .arr ((List.replicate 60 (JValue.str "exploit/x")).take 50))] ∧
    ((List.replicate 60 (JValue.str "exploit/x")).take 50).length <
      (List.replicate 60 (JValue.str "exploit/x")).length :=
  ⟨⟨rfl, rfl⟩,
   (c10_count_vs_truncation postSixty st0 "" "" ""
      (List.replicate 60 (.str "exploit/x"))
      (List.replicate 60 (.str "exploit/x")) rfl rfl).1,
   (c10_count_vs_truncation postSixty st0 "" "" ""
      (List.replicate 60 (.str "exploit/x"))
      (List.replicate 60 (.str "exploit/x")) rfl rfl).2.2.1 (by simp)⟩

end MsfMcp
